import Mathlib

set_option autoImplicit false

/-
  Shallow embedding of the job-status tracking core of the vton-demo frontend:
  the useInferenceStatus hook (frontend/src/hooks/useInferenceStatus.ts), the
  InferenceService polling manager (frontend/src/services/inferenceService.ts),
  the RunPodService poll loop (runpodService) and the useRunPodJob hook.
  Machine numbers are modeled as Nat, and the interval arithmetic that uses
  Math.random is modeled over the rationals with the random draw an explicit
  parameter.
-/

namespace VtonTrack

/-- Job status values shared by InferenceTaskStatusResponse.status and
JobStatusResponse.status in the frontend services. -/
inductive Status where
  | IN_QUEUE
  | IN_PROGRESS
  | COMPLETED
  | FAILED
  | CANCELLED
deriving DecidableEq

/-- Membership test used all over the sources:
the array-includes check of COMPLETED, FAILED, CANCELLED. -/
def isTerminal : Status → Bool
  | Status.COMPLETED => true
  | Status.FAILED => true
  | Status.CANCELLED => true
  | _ => false

/-- JavaScript fallback x or-else d on an optional number, where 0 is falsy. -/
def jsOrNum : Option Nat → Nat → Nat
  | some v, d => if v = 0 then d else v
  | none, d => d

/-- JavaScript fallback x or-else d on an optional string, where the empty
string is falsy. -/
def jsOrStr : Option String → String → String
  | some v, d => if v = "" then d else v
  | none, d => d

/-- JavaScript fallback x or-else y on two optional strings (the right side
may itself be absent), where the empty string is falsy. -/
def jsOrOpt : Option String → Option String → Option String
  | some v, y => if v = "" then y else some v
  | none, y => y

/-- InferenceTaskStatusResponse (inferenceService.ts): the status payload the
hook receives from either channel. -/
structure InferenceTaskStatusResponse where
  task_id : String
  status : Status
  progress : Nat
  message : String
  results_count : Nat
  error_message : Option String
deriving DecidableEq

/-- Event types of InferenceTaskEvent. The source type names the variants
STATE, PROGRESS, RESULT, ERROR. -/
inductive EventType where
  | STATE
  | PROGRESS
  | RESULT
  | ERROR
deriving DecidableEq

/-- The payload carried by an InferenceTaskEvent. All fields are optional in
the source interface. -/
structure EventPayload where
  status : Option Status
  progress : Option Nat
  message : Option String
  result_s3_key : Option String
  error : Option String
deriving DecidableEq

/-- InferenceTaskEvent (inferenceService.ts): a push fragment delivered by
the realtime channel. -/
structure InferenceTaskEvent where
  id : Nat
  inference_task_id : String
  event_type : EventType
  payload : EventPayload
deriving DecidableEq

/-- The two mutable refs of useInferenceStatus that drive callback
deduplication: lastStatusRef and hasCompletedRef. -/
structure HookRefs where
  lastStatus : Option Status
  hasCompleted : Bool
deriving DecidableEq

/-- The source tag recorded in the hook state (state.source). -/
inductive Source where
  | realtime
  | polling
  | idle
deriving DecidableEq

/-- Subscriber-visible callback invocations of the hook. statusUpdate is the
onStatusUpdate callback; errorCb is the onError callback; completeFetch
stands for the getTaskResults fetch whose resolution invokes onComplete
(or onError if the fetch itself fails). The onEvent pass-through is not
modeled: no claim concerns it. -/
inductive HookEmit where
  | statusUpdate (s : InferenceTaskStatusResponse)
  | errorCb (msg : String)
  | completeFetch (taskId : String)
deriving DecidableEq

/-- The part of the useInferenceStatus state the claims are about: the two
refs, state.status, state.source and state.events. -/
structure HookState where
  refs : HookRefs
  statusSnap : Option InferenceTaskStatusResponse
  src : Source
  events : List InferenceTaskEvent
deriving DecidableEq

/-- The initial hook state: refs cleared, no status, source idle. -/
def initHookState : HookState :=
  { refs := { lastStatus := none, hasCompleted := false }
    statusSnap := none
    src := Source.idle
    events := [] }

/-- The onError sub-branch of updateStatus: fires only when the new status is
FAILED and carries a truthy error_message. -/
def failCb (n : InferenceTaskStatusResponse) : List HookEmit :=
  if n.status = Status.FAILED then
    match n.error_message with
    | some m => if m = "" then [] else [HookEmit.errorCb m]
    | none => []
  else []

/-- updateStatus (useInferenceStatus.ts lines 57-84), the merge point shared
by the realtime and the polling channel. It overwrites state.status with the
incoming response, fires onStatusUpdate (and onError for a FAILED status with
a message) when the status string differs from lastStatusRef, and on the
first terminal status flips hasCompletedRef, launching the result fetch when
that status is COMPLETED. -/
def updateStatus (st : HookState) (n : InferenceTaskStatusResponse) (src : Source) :
    HookState × List HookEmit :=
  ({ st with
      refs :=
        { lastStatus :=
            if some n.status ≠ st.refs.lastStatus then some n.status else st.refs.lastStatus
          hasCompleted :=
            if isTerminal n.status ∧ st.refs.hasCompleted = false then true
            else st.refs.hasCompleted }
      statusSnap := some n
      src := src },
   (if some n.status ≠ st.refs.lastStatus then HookEmit.statusUpdate n :: failCb n else []) ++
   (if isTerminal n.status ∧ st.refs.hasCompleted = false ∧ n.status = Status.COMPLETED then
      [HookEmit.completeFetch n.task_id]
    else []))

/-- Feeding a whole list of status responses through updateStatus, collecting
the callbacks the merge function itself emits, in order. The source tag does
not influence behavior; the polling tag is used. This covers only the
updateStatus path shared by both channels: the additional deliveries made by
the polling service in its own stop branch, which the hook forwards to the
subscriber unguarded (useInferenceStatus.ts lines 224-236), are modeled
separately by polledAttempt below. -/
def runUpdates (st : HookState) : List InferenceTaskStatusResponse → HookState × List HookEmit
  | [] => (st, [])
  | n :: rest =>
    let step := updateStatus st n Source.polling
    let restRun := runUpdates step.1 rest
    (restRun.1, step.2 ++ restRun.2)

/-- Recognizer for the completeFetch emission. -/
def isCompleteEmit : HookEmit → Bool
  | HookEmit.completeFetch _ => true
  | _ => false

/-- Recognizer for the terminal notifications of claim C1: onError invocations
and the onComplete-bound result fetch. -/
def isTerminalEmit : HookEmit → Bool
  | HookEmit.errorCb _ => true
  | HookEmit.completeFetch _ => true
  | _ => false

/-- Number of onComplete-bound result fetches in an emission list. -/
def completeCount (es : List HookEmit) : Nat := es.countP isCompleteEmit

/-- Number of terminal notifications (onError plus completeFetch) in an
emission list. -/
def terminalEmitCount (es : List HookEmit) : Nat := es.countP isTerminalEmit

/-- A FAILED response with an error message, as the polling channel would
deliver it. -/
def failedResp : InferenceTaskStatusResponse :=
  { task_id := "t1", status := Status.FAILED, progress := 80,
    message := "Echec du traitement", results_count := 0,
    error_message := some "boom" }

/-- A non-terminal IN_PROGRESS response for the same task. -/
def runningResp : InferenceTaskStatusResponse :=
  { task_id := "t1", status := Status.IN_PROGRESS, progress := 80,
    message := "Traitement en cours...", results_count := 0,
    error_message := none }

/-- The emission list of one updateStatus call, written out. -/
theorem updateStatus_snd (st : HookState) (n : InferenceTaskStatusResponse) (src : Source) :
    (updateStatus st n src).2 =
      (if some n.status ≠ st.refs.lastStatus then HookEmit.statusUpdate n :: failCb n else []) ++
      (if isTerminal n.status ∧ st.refs.hasCompleted = false ∧ n.status = Status.COMPLETED then
        [HookEmit.completeFetch n.task_id]
      else []) := rfl

/-- After updateStatus, lastStatusRef always holds the status just processed. -/
theorem updateStatus_lastStatus (st : HookState) (n : InferenceTaskStatusResponse) (src : Source) :
    (updateStatus st n src).1.refs.lastStatus = some n.status := by
  simp only [updateStatus]
  split_ifs with h
  · rfl
  · exact (not_ne_iff.mp h).symm

/-- After updateStatus, hasCompletedRef is the old flag joined with the
terminality of the status just processed. -/
theorem updateStatus_hasCompleted (st : HookState) (n : InferenceTaskStatusResponse)
    (src : Source) :
    (updateStatus st n src).1.refs.hasCompleted =
      (st.refs.hasCompleted || isTerminal n.status) := by
  show (if isTerminal n.status ∧ st.refs.hasCompleted = false then true
        else st.refs.hasCompleted) = (st.refs.hasCompleted || isTerminal n.status)
  cases hb : st.refs.hasCompleted <;> cases ht : isTerminal n.status <;> simp

/-- The failCb branch never contains a completeFetch emission. -/
theorem completeCount_failCb (n : InferenceTaskStatusResponse) :
    completeCount (failCb n) = 0 := by
  unfold failCb
  split_ifs with h
  · cases n.error_message with
    | none => rfl
    | some m =>
      by_cases he : m = ""
      · simp [he, completeCount]
      · simp [he, completeCount, List.countP_cons, List.countP_nil, isCompleteEmit]
  · rfl

/-- One updateStatus call launches the result fetch exactly when the incoming
status is a first terminal COMPLETED. -/
theorem updateStatus_completeCount (st : HookState) (n : InferenceTaskStatusResponse)
    (src : Source) :
    completeCount (updateStatus st n src).2 =
      (if isTerminal n.status ∧ st.refs.hasCompleted = false ∧ n.status = Status.COMPLETED
        then 1 else 0) := by
  rw [updateStatus_snd]
  unfold completeCount
  rw [List.countP_append]
  have hfirst : List.countP isCompleteEmit
      (if some n.status ≠ st.refs.lastStatus then HookEmit.statusUpdate n :: failCb n
       else []) = 0 := by
    split_ifs
    · have hfc := completeCount_failCb n
      unfold completeCount at hfc
      simp [List.countP_cons, isCompleteEmit, hfc]
    · rfl
  rw [hfirst]
  split_ifs with h2
  · simp [List.countP_cons, List.countP_nil, isCompleteEmit]
  · simp

/-- If hasCompletedRef is already set, updateStatus launches no result fetch
and keeps the flag set. -/
theorem updateStatus_after_completed (st : HookState) (n : InferenceTaskStatusResponse)
    (src : Source) (h : st.refs.hasCompleted = true) :
    completeCount (updateStatus st n src).2 = 0 ∧
    (updateStatus st n src).1.refs.hasCompleted = true := by
  constructor
  · rw [updateStatus_completeCount]
    simp [h]
  · rw [updateStatus_hasCompleted, h]
    simp

/-- Once hasCompletedRef is set, no suffix of updates launches a result
fetch. -/
theorem runUpdates_completeCount_zero (l : List InferenceTaskStatusResponse) :
    ∀ st : HookState, st.refs.hasCompleted = true →
      completeCount (runUpdates st l).2 = 0 := by
  induction l with
  | nil => intro st _; rfl
  | cons n rest ih =>
    intro st h
    have step := updateStatus_after_completed st n Source.polling h
    simp only [runUpdates]
    unfold completeCount at *
    rw [List.countP_append, step.1, ih _ step.2]

/-- Over any run from a state whose hasCompletedRef is clear, at most one
result fetch is launched. -/
theorem runUpdates_completeCount_le_one (l : List InferenceTaskStatusResponse) :
    ∀ st : HookState, completeCount (runUpdates st l).2 ≤ 1 := by
  induction l with
  | nil => intro st; simp [runUpdates, completeCount]
  | cons n rest ih =>
    intro st
    simp only [runUpdates]
    unfold completeCount
    rw [List.countP_append]
    by_cases hc : isTerminal n.status ∧ st.refs.hasCompleted = false ∧
        n.status = Status.COMPLETED
    · have h1 : completeCount (updateStatus st n Source.polling).2 = 1 := by
        rw [updateStatus_completeCount, if_pos hc]
      have h2 : (updateStatus st n Source.polling).1.refs.hasCompleted = true := by
        rw [updateStatus_hasCompleted, hc.2.1, hc.1]; rfl
      have h3 := runUpdates_completeCount_zero rest _ h2
      unfold completeCount at h1 h3
      omega
    · have h1 : completeCount (updateStatus st n Source.polling).2 = 0 := by
        rw [updateStatus_completeCount, if_neg hc]
      have h3 := ih (updateStatus st n Source.polling).1
      unfold completeCount at h1 h3
      omega

/-- An onError emission of updateStatus means the incoming status is FAILED
and differs from lastStatusRef. -/
theorem errorCb_mem_updateStatus (st : HookState) (n : InferenceTaskStatusResponse)
    (src : Source) (m : String) (h : HookEmit.errorCb m ∈ (updateStatus st n src).2) :
    n.status = Status.FAILED ∧ some n.status ≠ st.refs.lastStatus := by
  rw [updateStatus_snd] at h
  rw [List.mem_append] at h
  rcases h with h | h
  · by_cases hch : some n.status ≠ st.refs.lastStatus
    · rw [if_pos hch] at h
      rcases List.mem_cons.mp h with h | h
      · exact absurd h (by simp)
      · unfold failCb at h
        by_cases hf : n.status = Status.FAILED
        · exact ⟨hf, hch⟩
        · rw [if_neg hf] at h
          exact absurd h (List.not_mem_nil _)
    · rw [if_neg hch] at h
      exact absurd h (List.not_mem_nil _)
  · by_cases ht : isTerminal n.status ∧ st.refs.hasCompleted = false ∧
        n.status = Status.COMPLETED
    · rw [if_pos ht] at h
      simp at h
    · rw [if_neg ht] at h
      exact absurd h (List.not_mem_nil _)

/-- Recognizer for the synchronous subscriber callbacks of updateStatus:
onStatusUpdate and onError. -/
def isCallbackEmit : HookEmit → Bool
  | HookEmit.statusUpdate _ => true
  | HookEmit.errorCb _ => true
  | _ => false

/-- Claim C10: updateStatus fires the onStatusUpdate and onError callbacks
only when the incoming status value differs from lastStatusRef, so two
consecutive responses with identical status produce callbacks at most for
the first one, and two consecutive identical FAILED responses produce at
most one onError call. -/
theorem c10_consecutive_dedup :
    (∀ (st : HookState) (n1 n2 : InferenceTaskStatusResponse) (s1 s2 : Source),
        n1.status = n2.status →
        (updateStatus (updateStatus st n1 s1).1 n2 s2).2 = [])
    ∧ (∀ (st : HookState) (n : InferenceTaskStatusResponse) (src : Source),
        some n.status = st.refs.lastStatus →
        (updateStatus st n src).2.countP isCallbackEmit = 0) := by
  constructor
  · intro st n1 n2 s1 s2 heq
    have hl := updateStatus_lastStatus st n1 s1
    have hc := updateStatus_hasCompleted st n1 s1
    have hcond1 : ¬ (some n2.status ≠ (updateStatus st n1 s1).1.refs.lastStatus) := by
      rw [hl, heq]
      simp
    have hcond2 : ¬ (isTerminal n2.status ∧
        (updateStatus st n1 s1).1.refs.hasCompleted = false ∧
        n2.status = Status.COMPLETED) := by
      rintro ⟨ht, hf, _⟩
      rw [hc] at hf
      have h1t : isTerminal n1.status = true := by rw [heq]; exact ht
      rw [h1t] at hf
      simp at hf
    rw [updateStatus_snd, if_neg hcond1, if_neg hcond2]
    rfl
  · intro st n src hls
    rw [updateStatus_snd, if_neg (by simp [hls])]
    split_ifs <;> rfl

/-- Witness for claim C10 at a concrete repeated IN_PROGRESS response. -/
theorem c10_consecutive_dedup_witness :
    (updateStatus (updateStatus initHookState runningResp Source.polling).1 runningResp
        Source.realtime).2 = [] :=
  c10_consecutive_dedup.1 initHookState runningResp runningResp Source.polling
    Source.realtime rfl

/-- The status fallback chain of handleRealtimeEvent: a present status is
truthy (the enum carries no empty string), otherwise the fallback. -/
def jsOrStatus : Option Status → Status → Status
  | some s, _ => s
  | none, d => d

/-- The newStatus object built at the top of handleRealtimeEvent
(useInferenceStatus.ts lines 93-100) from the event payload and the previous
snapshot, with the JavaScript or-else fallback on every field. -/
def baseRealtimeStatus (prev : Option InferenceTaskStatusResponse)
    (e : InferenceTaskEvent) : InferenceTaskStatusResponse :=
  { task_id := e.inference_task_id
    status := jsOrStatus e.payload.status
        (match prev with | some p => p.status | none => Status.IN_QUEUE)
    progress := jsOrNum e.payload.progress (jsOrNum (prev.map (fun p => p.progress)) 0)
    message := jsOrStr e.payload.message
        (jsOrStr (prev.map (fun p => p.message)) "En attente...")
    results_count := jsOrNum (prev.map (fun p => p.results_count)) 0
    error_message := jsOrOpt e.payload.error (prev.bind (fun p => p.error_message)) }

/-- The event-type specialization of handleRealtimeEvent (lines 102-109):
a RESULT event whose payload says COMPLETED pins results_count to 1 and
progress to 100; an ERROR event forces status FAILED and takes the payload
error verbatim. -/
def realtimeStatus (prev : Option InferenceTaskStatusResponse)
    (e : InferenceTaskEvent) : InferenceTaskStatusResponse :=
  if e.event_type = EventType.RESULT ∧ e.payload.status = some Status.COMPLETED then
    { baseRealtimeStatus prev e with results_count := 1, progress := 100 }
  else if e.event_type = EventType.ERROR then
    { baseRealtimeStatus prev e with
        status := Status.FAILED
        error_message := e.payload.error }
  else baseRealtimeStatus prev e

/-- handleRealtimeEvent (lines 87-118): builds the merged status from the
previous snapshot, runs it through updateStatus with the realtime tag, and
appends the raw event to state.events. The onEvent pass-through is not
modeled. -/
def handleRealtimeEvent (st : HookState) (e : InferenceTaskEvent) :
    HookState × List HookEmit :=
  let step := updateStatus st (realtimeStatus st.statusSnap e) Source.realtime
  ({ step.1 with events := step.1.events ++ [e] }, step.2)

/-- A polled IN_PROGRESS response at progress 50. -/
def pollResp50 : InferenceTaskStatusResponse :=
  { task_id := "t1", status := Status.IN_PROGRESS, progress := 50,
    message := "Traitement en cours...", results_count := 0, error_message := none }

/-- A stale realtime STATE fragment carrying progress 40 and status IN_QUEUE. -/
def staleEvent : InferenceTaskEvent :=
  { id := 1, inference_task_id := "t1", event_type := EventType.STATE,
    payload := { status := some Status.IN_QUEUE, progress := some 40,
                 message := none, result_s3_key := none, error := none } }

/-- A COMPLETED response at progress 100. -/
def completedResp : InferenceTaskStatusResponse :=
  { task_id := "t1", status := Status.COMPLETED, progress := 100,
    message := "Traitement termine avec succes", results_count := 1,
    error_message := none }

/-- Projection of the progress carried by an onStatusUpdate emission. -/
def emitProgress : HookEmit → Option Nat
  | HookEmit.statusUpdate s => some s.progress
  | _ => none

/-- Claim C2 as stated is false on the code: after the polling channel
delivers progress 50, a stale realtime fragment carrying progress 40 lowers
both the emitted onStatusUpdate progress sequence (50 then 40) and the
stored snapshot, and a fragment arriving after a terminal COMPLETED snapshot
still overwrites that snapshot. -/
theorem c2_counterexample :
    ((updateStatus initHookState pollResp50 Source.polling).2 ++
        (handleRealtimeEvent (updateStatus initHookState pollResp50 Source.polling).1
          staleEvent).2).filterMap emitProgress = [50, 40] ∧
    (handleRealtimeEvent (updateStatus initHookState pollResp50 Source.polling).1
        staleEvent).1.statusSnap.map (fun p => p.progress) = some 40 ∧
    (updateStatus (updateStatus initHookState completedResp Source.polling).1 runningResp
        Source.polling).1.statusSnap = some runningResp := by
  decide

/-- Claim C2 (amended): the hook applies no merge guard. updateStatus
unconditionally overwrites the snapshot with the incoming fragment, so a
lower progress fragment lowers the emitted progress and fragments arriving
after a terminal state still mutate the snapshot; previous progress survives
a realtime fragment only through the JavaScript or-else fallback, when the
payload omits progress and the event is not a RESULT event. -/
theorem c2_amended :
    (∀ (st : HookState) (n : InferenceTaskStatusResponse) (src : Source),
        (updateStatus st n src).1.statusSnap = some n)
    ∧ (∀ (p : InferenceTaskStatusResponse) (e : InferenceTaskEvent),
        e.payload.progress = none → e.event_type ≠ EventType.RESULT →
        (realtimeStatus (some p) e).progress = p.progress) := by
  refine ⟨fun st n src => rfl, fun p e hp he => ?_⟩
  have hbase : (baseRealtimeStatus (some p) e).progress = p.progress := by
    show jsOrNum e.payload.progress (jsOrNum (some p.progress) 0) = p.progress
    rw [hp]
    show (if p.progress = 0 then 0 else p.progress) = p.progress
    split_ifs with h0
    · omega
    · rfl
  unfold realtimeStatus
  rw [if_neg (fun hc => he hc.1)]
  split_ifs with h2
  · exact hbase
  · exact hbase

/-- A realtime fragment with no progress field, used as the C2 witness. -/
def noProgressEvent : InferenceTaskEvent :=
  { id := 2, inference_task_id := "t1", event_type := EventType.STATE,
    payload := { status := some Status.IN_PROGRESS, progress := none,
                 message := none, result_s3_key := none, error := none } }

/-- Witness for claim C2 (amended) at concrete inputs. -/
theorem c2_amended_witness :
    (updateStatus initHookState pollResp50 Source.polling).1.statusSnap = some pollResp50 ∧
    (realtimeStatus (some pollResp50) noProgressEvent).progress = 50 := by
  refine ⟨c2_amended.1 initHookState pollResp50 Source.polling, ?_⟩
  have h := c2_amended.2 pollResp50 noProgressEvent rfl (by decide)
  exact h.trans rfl

/-- JobStatusResponse (runpodService.ts): the status payload of the RunPod
status endpoint. The opaque output field is abstracted to an optional
string. -/
structure JobStatusResponse where
  job_id : String
  status : Status
  output : Option String
  error : Option String
  result_url : Option String
deriving DecidableEq

/-- Subscriber callbacks of the RunPod poll loop: onStatusUpdate, onComplete
and onError. -/
inductive PollEmit where
  | statusUpdate (s : JobStatusResponse)
  | complete (s : JobStatusResponse)
  | errorCb (msg : String)
deriving DecidableEq

/-- The exhaustion message of runpodService.pollJobStatus (line 116). -/
def timeoutMsg (maxAttempts : Nat) : String :=
  "Timeout: maximum " ++ toString maxAttempts ++ " tentatives atteint"

/-- The inner poll closure of runpodService.pollJobStatus (lines 75-133) on
the successful-fetch path. The list argument holds the responses that the
successive fetches resolve with; the counter is the attempts variable before
the call. Each attempt first fires onStatusUpdate, then on COMPLETED fires
onComplete, on FAILED fires onError with the response error string (with the
Job failed fallback), otherwise schedules the next poll while attempts is
below maxAttempts and the status is not CANCELLED, and otherwise fires
onError with the timeout message. The transient-fetch-error retry path
(lines 119-131) fires no callback until its own final failure and is not
modeled. -/
def pollSteps (maxAttempts : Nat) : Nat → List JobStatusResponse → List PollEmit
  | _, [] => []
  | attempts0, s :: rest =>
    PollEmit.statusUpdate s ::
      (if s.status = Status.COMPLETED then [PollEmit.complete s]
       else if s.status = Status.FAILED then
         [PollEmit.errorCb (jsOrStr s.error "Job failed")]
       else if attempts0 + 1 < maxAttempts ∧ s.status ≠ Status.CANCELLED then
         pollSteps maxAttempts (attempts0 + 1) rest
       else [PollEmit.errorCb (timeoutMsg maxAttempts)])

/-- pollJobStatus as called by useRunPodJob: the attempts counter starts
at 0. -/
def pollJobStatus (maxAttempts : Nat) (responses : List JobStatusResponse) :
    List PollEmit :=
  pollSteps maxAttempts 0 responses

/-- The end-of-attempt decision of InferenceService.startPolling
(inferenceService.ts lines 291-312), given the counters after the current
fetch: when the loop should continue (attempts and elapsed time under their
ceilings, status non-terminal; the isActive flag is true on this path since
the closure returns earlier when it is cleared) nothing is emitted and the
next poll is scheduled; otherwise exactly one of the four stop outcomes
fires. completeFetch stands for the getTaskResults call feeding
onComplete. -/
def startPollingStopEmits (attempts maxAttempts elapsed totalTimeout : Nat)
    (s : InferenceTaskStatusResponse) : List HookEmit :=
  if attempts < maxAttempts ∧ elapsed < totalTimeout ∧ isTerminal s.status = false then []
  else if s.status = Status.COMPLETED then [HookEmit.completeFetch s.task_id]
  else if s.status = Status.FAILED then
    [HookEmit.errorCb (jsOrStr s.error_message "Tâche échouée")]
  else if maxAttempts ≤ attempts then
    [HookEmit.errorCb "Timeout: nombre maximum de tentatives atteint"]
  else if totalTimeout ≤ elapsed then
    [HookEmit.errorCb "Timeout: temps maximum dépassé"]
  else []

/-- When every available response is non-terminal, the poll loop consumes
exactly the remaining attempt budget and ends with the timeout error. -/
theorem pollSteps_exhaust (maxAttempts : Nat) :
    ∀ (rs : List JobStatusResponse) (a : Nat), a < maxAttempts →
      maxAttempts ≤ a + rs.length →
      (∀ s ∈ rs, isTerminal s.status = false) →
      pollSteps maxAttempts a rs =
        (rs.take (maxAttempts - a)).map PollEmit.statusUpdate ++
          [PollEmit.errorCb (timeoutMsg maxAttempts)] := by
  intro rs
  induction rs with
  | nil =>
    intro a h1 h2 _
    simp at h2
    omega
  | cons s rest ih =>
    intro a h1 h2 hnt
    have hs := hnt s (List.mem_cons_self s rest)
    have hnc : ¬ s.status = Status.COMPLETED := by
      intro h; rw [h] at hs; exact absurd hs (by decide)
    have hnf : ¬ s.status = Status.FAILED := by
      intro h; rw [h] at hs; exact absurd hs (by decide)
    have hncan : s.status ≠ Status.CANCELLED := by
      intro h; rw [h] at hs; exact absurd hs (by decide)
    simp only [pollSteps]
    by_cases hlt : a + 1 < maxAttempts
    · rw [if_neg hnc, if_neg hnf, if_pos ⟨hlt, hncan⟩,
        ih (a + 1) hlt (by simp at h2 ⊢; omega)
          (fun x hx => hnt x (List.mem_cons_of_mem s hx))]
      have htake : maxAttempts - a = (maxAttempts - (a + 1)) + 1 := by omega
      rw [htake, List.take_succ_cons]
      simp
    · rw [if_neg hnc, if_neg hnf, if_neg (fun hand => hlt hand.1)]
      have h1t : maxAttempts - a = 1 := by omega
      rw [h1t, List.take_succ_cons, List.take_zero]
      simp

/-- Claim C4: when the RunPod poll loop exhausts maxAttempts with only
non-terminal responses, it surfaces the exhaustion error through onError
after delivering exactly the fetched statuses: no onComplete fires and no
delivered status is FAILED, so the tracked state stays at the last
non-terminal response. The InferenceService stop path agrees: with a
non-terminal response and the attempt ceiling (or the time ceiling) reached,
it emits exactly the matching timeout onError and nothing else. -/
theorem c4_poll_exhaustion :
    (∀ (maxAttempts : Nat) (rs : List JobStatusResponse),
      0 < maxAttempts → maxAttempts ≤ rs.length →
      (∀ s ∈ rs, isTerminal s.status = false) →
      pollJobStatus maxAttempts rs =
        (rs.take maxAttempts).map PollEmit.statusUpdate ++
          [PollEmit.errorCb (timeoutMsg maxAttempts)] ∧
      (∀ s, PollEmit.complete s ∉ pollJobStatus maxAttempts rs) ∧
      (∀ s, PollEmit.statusUpdate s ∈ pollJobStatus maxAttempts rs →
        s.status ≠ Status.FAILED))
    ∧ (∀ (attempts maxAttempts elapsed totalTimeout : Nat)
        (s : InferenceTaskStatusResponse),
        isTerminal s.status = false → maxAttempts ≤ attempts →
        startPollingStopEmits attempts maxAttempts elapsed totalTimeout s =
          [HookEmit.errorCb "Timeout: nombre maximum de tentatives atteint"])
    ∧ (∀ (attempts maxAttempts elapsed totalTimeout : Nat)
        (s : InferenceTaskStatusResponse),
        isTerminal s.status = false → attempts < maxAttempts → totalTimeout ≤ elapsed →
        startPollingStopEmits attempts maxAttempts elapsed totalTimeout s =
          [HookEmit.errorCb "Timeout: temps maximum dépassé"]) := by
  refine ⟨?_, ?_, ?_⟩
  · intro maxAttempts rs h0 hlen hnt
    have heq : pollJobStatus maxAttempts rs =
        (rs.take maxAttempts).map PollEmit.statusUpdate ++
          [PollEmit.errorCb (timeoutMsg maxAttempts)] := by
      unfold pollJobStatus
      rw [pollSteps_exhaust maxAttempts rs 0 h0 (by omega) hnt]
      simp
    refine ⟨heq, ?_, ?_⟩
    · intro s hmem
      rw [heq] at hmem
      rcases List.mem_append.mp hmem with h | h
      · rcases List.mem_map.mp h with ⟨x, _, hx⟩
        exact absurd hx (by simp)
      · simp at h
    · intro s hmem
      rw [heq] at hmem
      rcases List.mem_append.mp hmem with h | h
      · rcases List.mem_map.mp h with ⟨x, hxmem, hx⟩
        have hxrs : x ∈ rs := List.take_subset _ _ hxmem
        have hterm := hnt x hxrs
        have hxs : x = s := by injection hx
        rw [hxs] at hterm
        intro hF
        rw [hF] at hterm
        exact absurd hterm (by decide)
      · simp at h
  · intro attempts maxAttempts elapsed totalTimeout s hterm hge
    unfold startPollingStopEmits
    have hnc : ¬ s.status = Status.COMPLETED := by
      intro h; rw [h] at hterm; exact absurd hterm (by decide)
    have hnf : ¬ s.status = Status.FAILED := by
      intro h; rw [h] at hterm; exact absurd hterm (by decide)
    rw [if_neg (fun hand => absurd hand.1 (by omega)), if_neg hnc, if_neg hnf,
      if_pos hge]
  · intro attempts maxAttempts elapsed totalTimeout s hterm hlt hel
    unfold startPollingStopEmits
    have hnc : ¬ s.status = Status.COMPLETED := by
      intro h; rw [h] at hterm; exact absurd hterm (by decide)
    have hnf : ¬ s.status = Status.FAILED := by
      intro h; rw [h] at hterm; exact absurd hterm (by decide)
    rw [if_neg (fun hand => absurd hand.2.1 (by omega)), if_neg hnc, if_neg hnf,
      if_neg (by omega), if_pos hel]

/-- A non-terminal IN_PROGRESS RunPod response. -/
def runningJob : JobStatusResponse :=
  { job_id := "j1", status := Status.IN_PROGRESS, output := none, error := none,
    result_url := none }

/-- Witness for claim C4: maxAttempts 5 with five IN_PROGRESS responses, and
the InferenceService attempt ceiling at 30 of 30 attempts. -/
theorem c4_poll_exhaustion_witness :
    pollJobStatus 5 [runningJob, runningJob, runningJob, runningJob, runningJob] =
      ([runningJob, runningJob, runningJob, runningJob, runningJob].take 5).map
          PollEmit.statusUpdate ++
        [PollEmit.errorCb (timeoutMsg 5)] ∧
    startPollingStopEmits 30 30 1000 300000 runningResp =
      [HookEmit.errorCb "Timeout: nombre maximum de tentatives atteint"] :=
  ⟨(c4_poll_exhaustion.1 5 _ (by decide) (by decide) (by decide)).1,
   c4_poll_exhaustion.2.1 30 30 1000 300000 runningResp (by decide) (by decide)⟩

/-- The completion branch of the InferenceService stop path always emits one
result fetch feeding onComplete, whatever the counters: a COMPLETED status
already falsifies the continue condition by itself. -/
theorem startPollingStopEmits_completed (attempts maxAttempts elapsed totalTimeout : Nat)
    (n : InferenceTaskStatusResponse) (h : n.status = Status.COMPLETED) :
    startPollingStopEmits attempts maxAttempts elapsed totalTimeout n =
      [HookEmit.completeFetch n.task_id] := by
  have hcont : ¬ (attempts < maxAttempts ∧ elapsed < totalTimeout ∧
      isTerminal n.status = false) := by
    rintro ⟨_, _, hterm⟩
    rw [h] at hterm
    exact absurd hterm (by decide)
  unfold startPollingStopEmits
  rw [if_neg hcont, if_pos h]

/-- One full polled attempt as the subscriber sees it: the poll closure of
InferenceService.startPolling calls onStatusUpdate (line 289), which the
hook routes into updateStatus, and then runs its end-of-attempt stop logic
(lines 291-312), whose onComplete and onError callbacks the hook forwards to
the subscriber without consulting hasCompletedRef (useInferenceStatus.ts
lines 224-236). -/
def polledAttempt (st : HookState) (attempts maxAttempts elapsed totalTimeout : Nat)
    (n : InferenceTaskStatusResponse) : HookState × List HookEmit :=
  let step := updateStatus st n Source.polling
  (step.1, step.2 ++ startPollingStopEmits attempts maxAttempts elapsed totalTimeout n)

/-- Claim C1 as stated is false on the code, on both terminal paths: the
fragment sequence FAILED, IN_PROGRESS, FAILED makes the hook deliver the
onError terminal notification twice (the lastStatusRef deduplication
compares only adjacent statuses and hasCompletedRef does not guard the
onError branch), and a single polled COMPLETED response delivers onComplete
twice — once through the guarded result fetch inside updateStatus and once
more through the completion branch of the polling service, which the hook
forwards unguarded. -/
theorem c1_counterexample :
    ¬ terminalEmitCount (runUpdates initHookState [failedResp, runningResp, failedResp]).2 ≤ 1 ∧
    completeCount (polledAttempt initHookState 1 30 100 300000 completedResp).2 = 2 := by
  decide

/-- Claim C1 (amended): terminal delivery is only partially deduplicated.
The result fetch launched inside updateStatus is guarded by hasCompletedRef
and fires at most once per tracker lifetime over any fragment sequence; but
the completion branch of the polling service launches a further fetch
feeding onComplete through the unguarded hook wrapper, so a poll attempt
observing COMPLETED yields two onComplete deliveries when it is the first
terminal observation, and still one delivery even after hasCompletedRef is
set; and onError fires exactly for a FAILED report carrying a message whose
status differs from the immediately preceding status value, so it can fire
again after an intervening fragment of a different status. -/
theorem c1_amended :
    (∀ l : List InferenceTaskStatusResponse,
        completeCount (runUpdates initHookState l).2 ≤ 1)
    ∧ (∀ (st : HookState) (attempts maxAttempts elapsed totalTimeout : Nat)
        (n : InferenceTaskStatusResponse),
        st.refs.hasCompleted = false → n.status = Status.COMPLETED →
        completeCount (polledAttempt st attempts maxAttempts elapsed totalTimeout n).2 = 2)
    ∧ (∀ (st : HookState) (attempts maxAttempts elapsed totalTimeout : Nat)
        (n : InferenceTaskStatusResponse),
        st.refs.hasCompleted = true → n.status = Status.COMPLETED →
        completeCount (polledAttempt st attempts maxAttempts elapsed totalTimeout n).2 = 1)
    ∧ (∀ (st : HookState) (n : InferenceTaskStatusResponse) (src : Source) (m : String),
        HookEmit.errorCb m ∈ (updateStatus st n src).2 →
        n.status = Status.FAILED ∧ some n.status ≠ st.refs.lastStatus) := by
  have hstop : ∀ (a mA e t : Nat) (n : InferenceTaskStatusResponse),
      n.status = Status.COMPLETED →
      completeCount (startPollingStopEmits a mA e t n) = 1 := by
    intro a mA e t n h
    rw [startPollingStopEmits_completed a mA e t n h]
    rfl
  refine ⟨fun l => runUpdates_completeCount_le_one l initHookState, ?_, ?_,
          fun st n src m h => errorCb_mem_updateStatus st n src m h⟩
  · intro st a mA e t n hc hn
    show completeCount ((updateStatus st n Source.polling).2 ++
        startPollingStopEmits a mA e t n) = 2
    unfold completeCount
    rw [List.countP_append]
    have h1 : completeCount (updateStatus st n Source.polling).2 = 1 := by
      rw [updateStatus_completeCount,
        if_pos ⟨show isTerminal n.status = true by rw [hn]; decide, hc, hn⟩]
    have h2 := hstop a mA e t n hn
    unfold completeCount at h1 h2
    omega
  · intro st a mA e t n hc hn
    show completeCount ((updateStatus st n Source.polling).2 ++
        startPollingStopEmits a mA e t n) = 1
    unfold completeCount
    rw [List.countP_append]
    have h1 := (updateStatus_after_completed st n Source.polling hc).1
    have h2 := hstop a mA e t n hn
    unfold completeCount at h1 h2
    omega

/-- Witness for claim C1 (amended) at concrete runs: the guarded
updateStatus path stays at one delivery over the counterexample sequence,
while the first polled COMPLETED yields two deliveries. -/
theorem c1_amended_witness :
    completeCount (runUpdates initHookState [failedResp, runningResp, failedResp]).2 ≤ 1 ∧
    completeCount (polledAttempt initHookState 1 30 100 300000 completedResp).2 = 2 ∧
    (Status.FAILED = Status.FAILED ∧
      some Status.FAILED ≠ initHookState.refs.lastStatus) := by
  refine ⟨c1_amended.1 [failedResp, runningResp, failedResp],
          c1_amended.2.1 initHookState 1 30 100 300000 completedResp rfl rfl, ?_⟩
  have h : HookEmit.errorCb "boom" ∈ (updateStatus initHookState failedResp Source.polling).2 := by
    decide
  exact ⟨rfl, (c1_amended.2.2.2 initHookState failedResp Source.polling "boom" h).2⟩

/-- A FAILED RunPod response whose server-supplied error string happens to be
the exhaustion message for 5 attempts. -/
def failedTimeoutJob : JobStatusResponse :=
  { job_id := "j1", status := Status.FAILED, output := none,
    error := some (timeoutMsg 5), result_url := none }

/-- Claim C9 as stated is false on the code: both the stopped-watching case
and the remote-failure case reach subscribers through onError carrying plain
strings, so a remote failure whose server-supplied error string equals the
exhaustion message is indistinguishable from exhaustion: the two runs below
deliver exactly the same final onError notification. -/
theorem c9_counterexample :
    pollJobStatus 5 [failedTimeoutJob] =
      [PollEmit.statusUpdate failedTimeoutJob, PollEmit.errorCb (timeoutMsg 5)] ∧
    (pollJobStatus 5 [runningJob, runningJob, runningJob, runningJob, runningJob]).getLast? =
      some (PollEmit.errorCb (timeoutMsg 5)) := by
  decide

/-- Claim C9 (amended): the exhaustion path always emits the fixed timeout
message while the remote-failure path emits the response error string with
the Job failed fallback; the two notifications are distinguishable exactly
when that string differs from the timeout message — errors are bare strings,
not structured kinds. -/
theorem c9_amended :
    ∀ (maxAttempts : Nat) (s : JobStatusResponse) (rs : List JobStatusResponse),
      0 < maxAttempts → maxAttempts ≤ rs.length →
      (∀ r ∈ rs, isTerminal r.status = false) →
      s.status = Status.FAILED →
      pollJobStatus maxAttempts [s] =
        [PollEmit.statusUpdate s, PollEmit.errorCb (jsOrStr s.error "Job failed")] ∧
      (pollJobStatus maxAttempts rs).getLast? =
        some (PollEmit.errorCb (timeoutMsg maxAttempts)) ∧
      (jsOrStr s.error "Job failed" ≠ timeoutMsg maxAttempts →
        (pollJobStatus maxAttempts [s]).getLast? ≠
          (pollJobStatus maxAttempts rs).getLast?) := by
  intro maxAttempts s rs h0 hlen hnt hF
  have hfirst : pollJobStatus maxAttempts [s] =
      [PollEmit.statusUpdate s, PollEmit.errorCb (jsOrStr s.error "Job failed")] := by
    unfold pollJobStatus
    simp only [pollSteps]
    rw [if_neg (by rw [hF]; simp), if_pos hF]
  have hsecond : (pollJobStatus maxAttempts rs).getLast? =
      some (PollEmit.errorCb (timeoutMsg maxAttempts)) := by
    unfold pollJobStatus
    rw [pollSteps_exhaust maxAttempts rs 0 h0 (by omega) hnt]
    exact List.getLast?_concat _
  refine ⟨hfirst, hsecond, fun hne => ?_⟩
  rw [hfirst, hsecond]
  simpa using hne

/-- A FAILED RunPod response with a distinct error string. -/
def failedBoomJob : JobStatusResponse :=
  { job_id := "j1", status := Status.FAILED, output := none, error := some "boom",
    result_url := none }

/-- Witness for claim C9 (amended): a failure string different from the
timeout message makes the two final notifications differ. -/
theorem c9_amended_witness :
    (pollJobStatus 5 [failedBoomJob]).getLast? ≠
      (pollJobStatus 5 [runningJob, runningJob, runningJob, runningJob, runningJob]).getLast? :=
  (c9_amended 5 failedBoomJob [runningJob, runningJob, runningJob, runningJob, runningJob]
    (by decide) (by decide) (by decide) rfl).2.2 (by decide)

/-- The joint state of useRunPodJob and one running pollJobStatus loop: the
pollingActiveRef flag of the hook, whether a poll invocation is pending (the
initial call or an armed setTimeout), the attempts counter of the loop
closure, and the responses the remaining fetches would resolve with. -/
structure RunPodSysState where
  active : Bool
  scheduled : Bool
  attempts : Nat
  pending : List JobStatusResponse
deriving DecidableEq

/-- Interleaving events: fire runs the pending poll invocation to completion
(its fetch resolves); stop is the stopPolling callback of useRunPodJob
(lines 206-209), which only clears flags and cancels no timer. -/
inductive SysEvent where
  | fire
  | stop
deriving DecidableEq

/-- One transition of the interleaved system. stopPolling sets
pollingActiveRef.current to false and nothing else; the poll closure of
runpodService.pollJobStatus never reads that flag, so the fire transition is
written exactly as the closure body and does not mention active. -/
def sysStep (maxAttempts : Nat) (st : RunPodSysState) :
    SysEvent → RunPodSysState × List PollEmit
  | SysEvent.stop => ({ st with active := false }, [])
  | SysEvent.fire =>
    if st.scheduled then
      match st.pending with
      | [] => ({ st with scheduled := false }, [])
      | s :: rest =>
        if s.status = Status.COMPLETED then
          ({ st with scheduled := false, attempts := st.attempts + 1, pending := rest },
            [PollEmit.statusUpdate s, PollEmit.complete s])
        else if s.status = Status.FAILED then
          ({ st with scheduled := false, attempts := st.attempts + 1, pending := rest },
            [PollEmit.statusUpdate s, PollEmit.errorCb (jsOrStr s.error "Job failed")])
        else if st.attempts + 1 < maxAttempts ∧ s.status ≠ Status.CANCELLED then
          ({ st with scheduled := true, attempts := st.attempts + 1, pending := rest },
            [PollEmit.statusUpdate s])
        else
          ({ st with scheduled := false, attempts := st.attempts + 1, pending := rest },
            [PollEmit.statusUpdate s, PollEmit.errorCb (timeoutMsg maxAttempts)])
    else (st, [])

/-- Running a sequence of interleaving events, collecting the emissions. -/
def sysRun (maxAttempts : Nat) (st : RunPodSysState) :
    List SysEvent → RunPodSysState × List PollEmit
  | [] => (st, [])
  | e :: es =>
    let step := sysStep maxAttempts st e
    let rest := sysRun maxAttempts step.1 es
    (rest.1, step.2 ++ rest.2)

/-- A COMPLETED RunPod response carrying a result reference. -/
def completedJob : JobStatusResponse :=
  { job_id := "j1", status := Status.COMPLETED, output := some "out", error := none,
    result_url := some "https://example.com/r1" }

/-- Initial system state: loop armed, two responses ahead. -/
def c6Start : RunPodSysState :=
  { active := true, scheduled := true, attempts := 0,
    pending := [runningJob, completedJob] }

/-- Claim C6 as stated is false on the code: after fire then stop — so
stopPolling has returned and pollingActiveRef is false — the continuation
that was scheduled before the stop still runs its fetch and fires both
onStatusUpdate and onComplete, because the loop never checks the flag. -/
theorem c6_counterexample :
    (sysRun 30 c6Start [SysEvent.fire, SysEvent.stop]).1.active = false ∧
    (sysRun 30 c6Start [SysEvent.fire, SysEvent.stop, SysEvent.fire]).2 =
      [PollEmit.statusUpdate runningJob, PollEmit.statusUpdate completedJob,
        PollEmit.complete completedJob] := by
  decide

/-- Claim C6 (amended): stopPolling only clears the hook flag and emits
nothing, and the poll transition is entirely insensitive to that flag: the
emissions, the rescheduling decision and the remaining responses after a
fire are identical whatever value active holds, so scheduled continuations
keep fetching and firing subscriber callbacks after stop returns, until the
loop ends on its own (terminal status, CANCELLED observation or the attempt
ceiling). -/
theorem c6_amended :
    (∀ (maxAttempts : Nat) (st : RunPodSysState),
        sysStep maxAttempts st SysEvent.stop = ({ st with active := false }, []))
    ∧ (∀ (maxAttempts : Nat) (st : RunPodSysState) (b : Bool),
        (sysStep maxAttempts { st with active := b } SysEvent.fire).2 =
          (sysStep maxAttempts st SysEvent.fire).2 ∧
        (sysStep maxAttempts { st with active := b } SysEvent.fire).1.scheduled =
          (sysStep maxAttempts st SysEvent.fire).1.scheduled ∧
        (sysStep maxAttempts { st with active := b } SysEvent.fire).1.pending =
          (sysStep maxAttempts st SysEvent.fire).1.pending) := by
  constructor
  · intro maxAttempts st
    rfl
  · intro maxAttempts st b
    cases st with
    | mk a sch att p =>
      cases sch
      · simp [sysStep]
      · cases p with
        | nil => simp [sysStep]
        | cons s rest =>
          simp only [sysStep]
          split_ifs <;> simp

/-- The shape stored in localStorage under runpod_job_ keys by
useRunPodJob.startJob and handleComplete: job id, status string, start
timestamp, and whether a result payload was saved. -/
structure StoredRunPodJob where
  jobId : String
  status : Status
  startTime : Nat
  hasResult : Bool
deriving DecidableEq

/-- The action a mount-time restoration would take for a stored job. -/
inductive ResumeAction where
  | loadCompleted (jobId : String)
  | resumePolling (jobId : String)
deriving DecidableEq

/-- The mount effect of useRunPodJob (lines 78-139). The restoration logic is
disabled in the source: the whole checkForPendingJobs body is commented out
and the effect only logs, so no stored snapshot of any age is ever
resumed. -/
def restoreOnMount (_now : Nat) (_stored : List StoredRunPodJob) :
    Option ResumeAction :=
  none

/-- The disabled checkForPendingJobs logic as written in the commented-out
block (lines 83-138), kept for comparison with the live behavior: it would
load the first completed job holding a result, and resume polling for the
first queued or in-progress job younger than 30 minutes. -/
def checkForPendingJobs (now : Nat) : List StoredRunPodJob → Option ResumeAction
  | [] => none
  | j :: rest =>
    if j.status = Status.COMPLETED ∧ j.hasResult then
      some (ResumeAction.loadCompleted j.jobId)
    else if now - j.startTime < 30 * 60 * 1000 ∧
        (j.status = Status.IN_QUEUE ∨ j.status = Status.IN_PROGRESS) then
      some (ResumeAction.resumePolling j.jobId)
    else checkForPendingJobs now rest

/-- A persisted non-terminal snapshot one minute old. -/
def youngStoredJob : StoredRunPodJob :=
  { jobId := "j1", status := Status.IN_PROGRESS, startTime := 1000000,
    hasResult := false }

/-- Claim C3 as stated is false on the code: at process start a persisted
non-terminal snapshot well inside the 30-minute threshold is not resumed —
the restoration block is commented out — even though the disabled logic
would have resumed it. -/
theorem c3_counterexample :
    restoreOnMount 1060000 [youngStoredJob] = none ∧
    1060000 - youngStoredJob.startTime < 30 * 60 * 1000 ∧
    isTerminal youngStoredJob.status = false ∧
    checkForPendingJobs 1060000 [youngStoredJob] =
      some (ResumeAction.resumePolling "j1") := by
  decide

/-- Claim C3 (amended): automatic restoration is disabled at process start:
no persisted snapshot, whatever its age or state, is resumed or surfaced;
in particular stale non-terminal snapshots are never resumed as in-flight,
vacuously. -/
theorem c3_amended :
    ∀ (now : Nat) (stored : List StoredRunPodJob),
      restoreOnMount now stored = none :=
  fun _ _ => rfl

/-- PollingManager (inferenceService.ts lines 64-72). -/
structure PollingManager where
  taskId : String
  attempts : Nat
  startTime : Nat
  currentInterval : Nat
  maxAttempts : Nat
  totalTimeout : Nat
  isActive : Bool
deriving DecidableEq

/-- The activePollers map of InferenceService, as the function from task id
to the manager stored under it. -/
def Pollers : Type := String → Option PollingManager

/-- InferenceService.stopPolling (lines 339-345): clears isActive on the
manager stored under the id (the running closure holds that object, so the
cleared flag reaches it at its next guard check) and deletes the entry.
Returns the new map together with the deactivated manager. -/
def stopPollingSvc (m : Pollers) (tid : String) : Pollers × Option PollingManager :=
  (fun k => if k = tid then none else m k,
   (m tid).map (fun mg => { mg with isActive := false }))

/-- The fresh manager built at the top of startPolling (lines 249-257):
attempts 0, interval 2000 ms, ceiling 30 attempts, timeout 300000 ms. -/
def freshManager (tid : String) (now : Nat) : PollingManager :=
  { taskId := tid, attempts := 0, startTime := now, currentInterval := 2000,
    maxAttempts := 30, totalTimeout := 300000, isActive := true }

/-- The map manipulation of InferenceService.startPolling (lines 240-259):
it first calls stopPolling for the task id, then installs a fresh manager
and starts a new loop for it. -/
def startPollingSvc (m : Pollers) (tid : String) (now : Nat) :
    Pollers × Option PollingManager :=
  (fun k => if k = tid then some (freshManager tid now) else (stopPollingSvc m tid).1 k,
   (stopPollingSvc m tid).2)

/-- A manager five attempts into tracking task t1. -/
def mgrFive : PollingManager :=
  { taskId := "t1", attempts := 5, startTime := 100, currentInterval := 4000,
    maxAttempts := 30, totalTimeout := 300000, isActive := true }

/-- The map holding mgrFive under t1. -/
def pollersOne : Pollers := fun k => if k = "t1" then some mgrFive else none

/-- Claim C7 as stated is false on the code: calling startPolling for an
already-tracked task id is not a no-op returning the existing handle — the
existing manager is deactivated (tearing down its loop at the next guard
check) and replaced by a fresh manager whose attempt counter is reset
to 0. -/
theorem c7_counterexample :
    (startPollingSvc pollersOne "t1" 999).2 = some { mgrFive with isActive := false } ∧
    (startPollingSvc pollersOne "t1" 999).1 "t1" = some (freshManager "t1" 999) ∧
    (freshManager "t1" 999).attempts = 0 ∧ mgrFive.attempts = 5 ∧
    mgrFive.isActive = true := by
  decide

/-- Claim C7 (amended): a second startPolling call for an already-tracked id
is last-wins, not a no-op: the stored manager is deactivated and dropped, a
fresh manager with attempts 0 is installed under the id, and entries for
other ids are untouched — so a single manager per id remains. -/
theorem c7_amended :
    ∀ (m : Pollers) (tid : String) (now : Nat),
      (startPollingSvc m tid now).1 tid = some (freshManager tid now) ∧
      (freshManager tid now).attempts = 0 ∧
      (startPollingSvc m tid now).2 =
        (m tid).map (fun mg => { mg with isActive := false }) ∧
      ∀ k, k ≠ tid → (startPollingSvc m tid now).1 k = m k := by
  intro m tid now
  refine ⟨by simp [startPollingSvc], rfl, rfl, fun k hk => ?_⟩
  show (if k = tid then some (freshManager tid now)
        else (stopPollingSvc m tid).1 k) = m k
  rw [if_neg hk]
  show (if k = tid then none else m k) = m k
  rw [if_neg hk]

/-- Witness for claim C7 (amended) on the concrete one-entry map. -/
theorem c7_amended_witness :
    (startPollingSvc pollersOne "t1" 999).1 "t1" = some (freshManager "t1" 999) ∧
    (startPollingSvc pollersOne "t1" 999).1 "t2" = pollersOne "t2" := by
  have h := c7_amended pollersOne "t1" 999
  exact ⟨h.1, h.2.2.2 "t2" (by decide)⟩

/-- The useRunPodJob state together with its pollingActiveRef flag. -/
structure RunPodJobState where
  jobId : Option String
  status : Option JobStatusResponse
  isPolling : Bool
  pollingActive : Bool
  error : Option String
deriving DecidableEq

/-- stopPolling of useRunPodJob (lines 206-209): clears pollingActiveRef and
isPolling, touching nothing else. -/
def stopPollingHook (st : RunPodJobState) : RunPodJobState :=
  { st with pollingActive := false, isPolling := false }

/-- cancelJob of useRunPodJob (lines 212-225): a no-op without a truthy job
id; otherwise it requests remote cancellation and, when that call succeeds
(apiOk), stops polling and maps the stored status, if any, to CANCELLED
unconditionally; when the call throws, the state is left unchanged. -/
def cancelJobUpdate (apiOk : Bool) (st : RunPodJobState) : RunPodJobState :=
  if st.jobId = none ∨ st.jobId = some "" then st
  else if apiOk = true then
    { stopPollingHook st with
        status := st.status.map (fun s => { s with status := Status.CANCELLED }) }
  else st

/-- A tracked job whose snapshot is already terminal COMPLETED. -/
def c8State : RunPodJobState :=
  { jobId := some "j1", status := some completedJob, isPolling := false,
    pollingActive := false, error := none }

/-- Claim C8 as stated is false on the code: cancelJob overwrites an already
terminal COMPLETED snapshot with CANCELLED — there is no terminal guard. -/
theorem c8_counterexample :
    isTerminal Status.COMPLETED = true ∧
    (cancelJobUpdate true c8State).status =
      some { completedJob with status := Status.CANCELLED } := by
  decide

/-- Claim C8 (amended): cancelJob, when the remote cancel call succeeds,
stops polling and unconditionally rewrites the status field of the stored
snapshot to CANCELLED, whether or not the current state is already terminal;
every other field of the snapshot and of the hook state is unchanged, and
without a job id the call is a no-op. -/
theorem c8_amended :
    ∀ (st : RunPodJobState) (s : JobStatusResponse),
      ¬ st.jobId = none → ¬ st.jobId = some "" → st.status = some s →
      (cancelJobUpdate true st).status = some { s with status := Status.CANCELLED } ∧
      (cancelJobUpdate true st).isPolling = false ∧
      (cancelJobUpdate true st).pollingActive = false ∧
      (cancelJobUpdate true st).jobId = st.jobId ∧
      (cancelJobUpdate true st).error = st.error ∧
      ((cancelJobUpdate true st).status.map
          (fun q => (q.job_id, q.output, q.error, q.result_url))) =
        st.status.map (fun q => (q.job_id, q.output, q.error, q.result_url)) ∧
      (∀ st2 : RunPodJobState, st2.jobId = none → cancelJobUpdate true st2 = st2) := by
  intro st s h1 h2 hs
  have hcond : ¬ (st.jobId = none ∨ st.jobId = some "") := by
    rintro (h | h)
    · exact h1 h
    · exact h2 h
  have hmain : cancelJobUpdate true st =
      { stopPollingHook st with
          status := st.status.map (fun q => { q with status := Status.CANCELLED }) } := by
    unfold cancelJobUpdate
    rw [if_neg hcond, if_pos rfl]
  refine ⟨?_, ?_, ?_, ?_, ?_, ?_, ?_⟩
  · rw [hmain]
    show st.status.map (fun q => { q with status := Status.CANCELLED }) = _
    rw [hs]
    rfl
  · rw [hmain]; rfl
  · rw [hmain]; rfl
  · rw [hmain]; rfl
  · rw [hmain]; rfl
  · rw [hmain]
    show (st.status.map (fun q => { q with status := Status.CANCELLED })).map
        (fun q => (q.job_id, q.output, q.error, q.result_url)) = _
    rw [hs]
    rfl
  · intro st2 h7
    unfold cancelJobUpdate
    rw [if_pos (Or.inl h7)]

/-- Witness for claim C8 (amended) at the already-completed snapshot. -/
theorem c8_amended_witness :
    (cancelJobUpdate true c8State).status =
      some { completedJob with status := Status.CANCELLED } ∧
    (cancelJobUpdate true c8State).jobId = c8State.jobId := by
  have h := c8_amended c8State completedJob (by decide) (by decide) rfl
  exact ⟨h.1, h.2.2.2.1⟩

/-- The jitter factor of the poll loops: 0.8 plus 0.4 times the Math.random
draw, with the draw passed explicitly as a rational in [0, 1). -/
def jitterFactor (r : ℚ) : ℚ := 4 / 5 + r * (2 / 5)

/-- The next-interval computation of runpodService.pollJobStatus (lines
106-108): exponential backoff by factor 1.5 capped at 30000 ms, multiplied
by the jitter factor after the cap. -/
def nextPollInterval (currentInterval r : ℚ) : ℚ :=
  min (currentInterval * (3 / 2)) 30000 * jitterFactor r

/-- Claim C5 as stated is false on the code: jitter multiplies after the
30000 ms cap, so with the previous interval at 20000 ms and a random draw of
0.75 the computed next interval is 33000 ms, strictly above the cap. -/
theorem c5_counterexample :
    nextPollInterval 20000 (3 / 4) = 33000 ∧ (30000 : ℚ) < 33000 ∧
    (0 : ℚ) ≤ 3 / 4 ∧ (3 / 4 : ℚ) < 1 := by
  refine ⟨?_, by norm_num, by norm_num, by norm_num⟩
  unfold nextPollInterval jitterFactor
  rw [show (20000 : ℚ) * (3 / 2) = 30000 by norm_num, min_self]
  norm_num

/-- Claim C5 (amended): writing m for the capped pre-jitter backoff
min(previous times 1.5, 30000), the computed interval lies in
[0.8 m, 1.2 m]; hence it never exceeds 36000 ms — it can overshoot the
30000 ms cap by up to 20 percent, because jitter multiplies after the cap —
and with the previous interval at least the 3000 ms base it never drops
below 3600 ms, in particular staying above 0.8 times the base, 2400 ms. -/
theorem c5_amended :
    ∀ (cur r : ℚ), 0 ≤ r → r ≤ 1 → 3000 ≤ cur →
      2400 ≤ nextPollInterval cur r ∧
      3600 ≤ nextPollInterval cur r ∧
      nextPollInterval cur r ≤ 36000 := by
  intro cur r hr0 hr1 hcur
  have hj1 : 4 / 5 ≤ jitterFactor r := by unfold jitterFactor; nlinarith
  have hj2 : jitterFactor r ≤ 6 / 5 := by unfold jitterFactor; nlinarith
  have hj0 : (0 : ℚ) ≤ jitterFactor r := by unfold jitterFactor; nlinarith
  have hm1 : min (cur * (3 / 2)) 30000 ≤ 30000 := min_le_right _ _
  have hm2 : (4500 : ℚ) ≤ min (cur * (3 / 2)) 30000 :=
    le_min (by nlinarith) (by norm_num)
  have hlow : (3600 : ℚ) ≤ nextPollInterval cur r := by
    unfold nextPollInterval
    calc (3600 : ℚ) = 4500 * (4 / 5) := by norm_num
    _ ≤ min (cur * (3 / 2)) 30000 * jitterFactor r :=
        mul_le_mul hm2 hj1 (by norm_num) (le_trans (by norm_num) hm2)
  have hhigh : nextPollInterval cur r ≤ 36000 := by
    unfold nextPollInterval
    calc min (cur * (3 / 2)) 30000 * jitterFactor r ≤ 30000 * (6 / 5) :=
        mul_le_mul hm1 hj2 hj0 (by norm_num)
    _ = 36000 := by norm_num
  exact ⟨by linarith, hlow, hhigh⟩

/-- Witness for claim C5 (amended) at the base interval and a zero draw. -/
theorem c5_amended_witness :
    2400 ≤ nextPollInterval 3000 0 ∧ 3600 ≤ nextPollInterval 3000 0 ∧
    nextPollInterval 3000 0 ≤ 36000 :=
  c5_amended 3000 0 (by norm_num) (by norm_num) (by norm_num)

end VtonTrack
